import Mathlib

/-!
Shallow embedding of `qfetch.py` (repository `qfetch`): a terminal system
information tool.  External effects (the `subprocess.check_output` calls,
`platform.*` probes, `os.listdir`, and the process-start random draw) are
modelled as fields of an environment record `Env`; every function of the
source becomes a pure Lean function over that record.  Python exceptions
are modelled with `Except String`, and the implicit `return None` of
Python with `Option`.
-/

namespace Qfetch

/-! ### Python-style string primitives -/

/-- `str.splitlines` restricted to `\n` separators (the only separator
occurring in this program): split on every newline, with no trailing empty
piece for a final newline. -/
def splitlinesAux : List Char → List Char → List String
  | [], acc => if acc.isEmpty then [] else [String.mk acc.reverse]
  | '\n' :: t, acc => String.mk acc.reverse :: splitlinesAux t []
  | c :: t, acc => splitlinesAux t (c :: acc)

def pySplitlines (s : String) : List String := splitlinesAux s.data []

/-- `str.strip()` with no argument: drop leading and trailing whitespace. -/
def pyStrip (s : String) : String :=
  String.mk (((s.data.dropWhile Char.isWhitespace).reverse.dropWhile Char.isWhitespace).reverse)

/-- `str.split()` with no argument: split on runs of whitespace, dropping
empty pieces. -/
def splitWsAux : List Char → List Char → List String
  | [], acc => if acc.isEmpty then [] else [String.mk acc.reverse]
  | c :: t, acc =>
      if c.isWhitespace then
        if acc.isEmpty then splitWsAux t [] else String.mk acc.reverse :: splitWsAux t []
      else splitWsAux t (c :: acc)

def pySplitWs (s : String) : List String := splitWsAux s.data []

/-- Does `pat` occur at the head of `cs`? -/
def leadsWith : List Char → List Char → Bool
  | [], _ => true
  | _ :: _, [] => false
  | p :: ps, c :: cs => p == c && leadsWith ps cs

/-- Python's `pat in s` substring test. -/
def hasSub (pat : List Char) : List Char → Bool
  | [] => leadsWith pat []
  | c :: t => leadsWith pat (c :: t) || hasSub pat t

def containsSubstr (s pat : String) : Bool := hasSub pat.data s.data

/-- Numeric value of a list of decimal digit characters. -/
def natOfDigits (ds : List Char) : Nat :=
  ds.foldl (fun a c => a * 10 + (c.toNat - 48)) 0

/-- Python `int(...)` on the decimal, unsigned strings this program feeds
it; any non-digit input raises `ValueError`. -/
def pyInt (s : String) : Except String Nat :=
  if !s.data.isEmpty && s.data.all Char.isDigit then .ok (natOfDigits s.data)
  else .error "ValueError: invalid literal for int"

/-- `str(x)` for a value that may be Python `None`. -/
def pyStr : Option String → String
  | some s => s
  | none => "None"

/-! ### The ASCII art catalog (lines 71-118 of the source; raw strings
transcribed byte for byte, braces and apostrophes written as `\x7b`,
`\x7d` and `\x27`) -/

def art0 : String :=
  "    |\\ |\\    \n    \\ \\| |\n     \\ | |\n   .--\x27\x27/\n  /o     \\\n  \\      /\n   \x7b>o<\x7d=\x27\n"

def art1 : String :=
  "    .---.\n   /     \\\n   \\.@-@./\n   /`\\_/`\\\n  //  _  \\\\\n | \\     )|_\n/`\\_`>  <_/ \\\n\\__/\x27---\x27\\__/\n"

def art2 : String :=
  " .\\\\            //.\n. \\ \\          / /.\n.\\  ,\\     /` /,.- \n -.   \\  /\x27/ /  .\n ` -   `-\x27  \\  -\n   \x27.       /.\\`\n      -    .-\n      :`//.\x27\n      .`.\x27\n      .\x27\n"

def art3 : String :=
  "       __\n   _  |@@|\n  / \\ \\--/ __\n  ) O|----|  |   __\n / / \\ \x7d\x7b /\\ )_ / _\\\n )/  /\\__/\\ \\__O (__ \n|/  (--/\\--)    \\__/\n /   _)(  )(_\n   `---\x27\x27---`\n"

def art4 : String :=
  "\n   |\\---/|\n   | ,_, |\n    \\_`_/-..----.\n ___/ `   \x27 ,\"\"+ \\\n(__...\x27   __\\    |`.___.\x27;\n  (_,...\x27(_,.`__)/\x27.....+\n"

def art : List String := [art0, art1, art2, art3, art4]

/-- `rand_art = random.choice(art)` (line 120): the uniform draw is made
once at module load; we model the drawn index as a `Fin 5` fixed for the
whole run. -/
def rand_art : Fin 5 → String
  | ⟨0, _⟩ => art0
  | ⟨1, _⟩ => art1
  | ⟨2, _⟩ => art2
  | ⟨3, _⟩ => art3
  | ⟨4, _⟩ => art4

/-! ### The run environment: CLI arguments, the random draw, and the raw
values produced by every external probe the program performs -/

structure Env where
  /-- `platform.system()` -/
  system : String
  /-- `platform.release()` -/
  release : String
  /-- `platform.platform(terse=True)` -/
  platformTerse : String
  /-- `platform.machine()` -/
  machine : String
  /-- `args.art` -/
  artArg : Option String
  /-- `args.sys_info` -/
  sysInfoArg : Option String
  /-- `args.theme` -/
  themeArg : Option String
  /-- index drawn by `random.choice(art)` at process start -/
  randIndex : Fin 5
  /-- `len(os.listdir("/opt/homebrew/cellar"))` -/
  brewCount : Nat
  /-- raw output of `dpkg --get-selections | wc -l` -/
  dpkgOut : String
  /-- raw output of `echo $SHELL` -/
  shellEnv : String
  /-- raw output of `zsh --version` -/
  zshVerOut : String
  /-- raw output of `bash --version` -/
  bashVerOut : String
  /-- raw output of `echo $TERM` -/
  termEnv : String
  /-- raw output of `sysctl -n hw.memsize` -/
  memsizeOut : String
  /-- raw output of `sysctl -n vm.pagesize` -/
  pagesizeOut : String
  /-- raw output of `vm_stat` -/
  vmStatOut : String
  /-- raw output of the `free -m | awk ...` pipeline -/
  memFreeOut : String
  /-- raw output of `uptime` -/
  uptimeOut : String
  /-- raw output of the `df -h / | awk ...` pipeline -/
  dfOut : String

/-! ### OS detection and theme resolution -/

def unsupported_detect_msg : String :=
  "[!] Couldn\x27t detect operating system, make a Github Issue if you\x27re on MacOS or Linux"

def unsupported_os_msg : String :=
  "[!] This operating system isn\x27t supported by qfetch."

/-- `os_check` (lines 125-136). -/
def os_check (s : String) : Except String String :=
  if s = "Darwin" then .ok "macOS"
  else if s = "Windows" then .ok "Windows"
  else if s = "Linux" then .ok "Linux"
  else .error unsupported_detect_msg

/-- The `colors` dict lookup of `theme_color_code` (lines 143-152). -/
def colors_get (k : String) : Option String :=
  if k = "default" then some "95"
  else if k = "red" then some "91"
  else if k = "green" then some "92"
  else if k = "yellow" then some "93"
  else if k = "blue" then some "94"
  else if k = "magenta" then some "95"
  else if k = "cyan" then some "96"
  else none

/-- `theme_color_code` (lines 141-152): `colors.get(args.theme or "default")`;
`or` replaces a missing (`None`) or empty theme by `"default"`. -/
def theme_color_code (theme : Option String) : Option String :=
  colors_get (match theme with
    | none => "default"
    | some t => if t = "" then "default" else t)

/-- How an f-string renders `theme_color_code()`: `str(None) = "None"` when
the lookup misses (never the case for argparse-validated themes). -/
def code_str (theme : Option String) : String := (theme_color_code theme).getD "None"

/-! ### Art selection and width computation -/

/-- The `art_dict` lookup inside `ascii_art` (lines 160-168). -/
def art_dict (env : Env) (a : String) : Option String :=
  if a = "Playboy-Bunny" then some art0
  else if a = "Tux" then some art1
  else if a = "Phoenix" then some art2
  else if a = "Robot" then some art3
  else if a = "Cat" then some art4
  else if a = "Random-Art" then some (rand_art env.randIndex)
  else none

/-- `ascii_art` (lines 155-170): default is `art[2]`; a truthy `args.art`
is looked up in `art_dict` (`None` for a name outside the dict, which the
argument parser rules out). -/
def ascii_art (env : Env) : Option String :=
  match env.artArg with
  | none => some art2
  | some a => if a = "" then some art2 else art_dict env a

/-- `longest_line` (lines 173-180) applied to the split art: starts from
`len(art_lines[0])` (an `IndexError`, modelled as `none`, on an empty
list) and folds a max over all lines. -/
def longest_line (lines : List String) : Option Nat :=
  match lines with
  | [] => none
  | l0 :: rest =>
      some ((l0 :: rest).foldl (fun acc line => if line.length > acc then line.length else acc)
        l0.length)

/-- The column width of line 355: `max(longest_line() + 3, 15)`. -/
def compute_width (lines : List String) : Option Nat :=
  (longest_line lines).map (fun ll => max (ll + 3) 15)

/-! ### Platform probes (lines 185-279).  Each one re-runs `os_check`
exactly as the source does; a raised exception is an `Except.error`. -/

/-- `package_count` (lines 185-194).  On a detected OS other than macOS
and Linux neither branch assigns `final_count`, so the final `return`
raises `UnboundLocalError`. -/
def package_count (env : Env) : Except String String :=
  match os_check env.system with
  | .error e => .error e
  | .ok os =>
      if os = "macOS" then .ok (toString env.brewCount ++ " (brew)")
      else if os = "Linux" then .ok (pyStrip env.dpkgOut ++ " (apt)")
      else .error "UnboundLocalError: local variable final_count referenced before assignment"

/-- `shell_ver` (lines 197-212).  The result is `Option String` because a
shell that is neither zsh nor bash falls off the end of the `if` chain and
Python implicitly returns `None`. -/
def shell_ver (env : Env) : Except String (Option String) :=
  match os_check env.system with
  | .error e => .error e
  | .ok os =>
      if os = "macOS" ∨ os = "Linux" then
        let shell := pyStrip env.shellEnv
        let is_wsl := containsSubstr env.release.toLower "microsoft"
        if containsSubstr shell "zsh" then
          match (pySplitWs (pyStrip env.zshVerOut)).get? 1 with
          | some v => .ok (some v)
          | none => .error "IndexError: list index out of range"
        else if containsSubstr shell "bash" then
          if is_wsl then .ok (some "bash (WSL)")
          else
            match (pySplitWs (pyStrip env.bashVerOut)).get? 3 with
            | some v => .ok (some ("bash " ++ v))
            | none => .error "IndexError: list index out of range"
        else .ok none
      else .error unsupported_os_msg

/-- `find_term` (lines 215-220). -/
def find_term (env : Env) : Except String String :=
  match os_check env.system with
  | .error e => .error e
  | .ok os =>
      if os = "macOS" ∨ os = "Linux" then .ok (pyStrip env.termEnv)
      else .error unsupported_os_msg

/-- One `re.search(lit + "\s+(\d+)", out).group(1)` step of `memory_current`
evaluated at a given start position: the literal, then at least one
whitespace, then at least one digit. -/
def litNumAt (pat : List Char) (cs : List Char) : Option Nat :=
  if leadsWith pat cs then
    let r1 := cs.drop pat.length
    let sp := r1.takeWhile Char.isWhitespace
    let ds := (r1.dropWhile Char.isWhitespace).takeWhile Char.isDigit
    if sp.isEmpty || ds.isEmpty then none else some (natOfDigits ds)
  else none

/-- `re.search` scan for `litNumAt` over all start positions. -/
def searchLitNum (pat : List Char) : List Char → Option Nat
  | [] => litNumAt pat []
  | c :: t =>
      match litNumAt pat (c :: t) with
      | some n => some n
      | none => searchLitNum pat t

/-- `memory_current` (lines 223-245).  A failed `re.search` leaves `None`,
on which `.group(1)` raises `AttributeError`. -/
def memory_current (env : Env) : Except String String :=
  match os_check env.system with
  | .error e => .error e
  | .ok os =>
      if os = "macOS" then
        match pyInt (pyStrip env.memsizeOut) with
        | .error e => .error e
        | .ok memsize =>
        match pyInt (pyStrip env.pagesizeOut) with
        | .error e => .error e
        | .ok page_size =>
        let out := (pyStrip env.vmStatOut).data
        match searchLitNum "Pages active:".data out with
        | none => .error "AttributeError: NoneType object has no attribute group"
        | some pages_active =>
        match searchLitNum "Pages wired down:".data out with
        | none => .error "AttributeError: NoneType object has no attribute group"
        | some pages_wired =>
        match searchLitNum "Pages speculative:".data out with
        | none => .error "AttributeError: NoneType object has no attribute group"
        | some pages_speculative =>
          let mem_total := memsize / (1024 ^ 2)
          let mem_used := ((pages_active + pages_wired + pages_speculative) * page_size) / (1024 * 1024)
          .ok (toString mem_used ++ "MiB / " ++ toString mem_total ++ "MiB")
      else if os = "Linux" then .ok (pyStrip env.memFreeOut)
      else .error unsupported_os_msg

/-! ### The uptime regular expression (line 252)

`\d{1,2}:\d{2}\s+up\s+(?:(\d+)\s+day(?:s)?,\s+)?(?:(\d+):(\d+))?(?:(\d+)\s+min(?:ute)?s?)?`

hand-compiled to a deterministic matcher.  Every alternative of the
pattern is anchored on disjoint first characters (digits, whitespace,
letters, `:`), so greedy matching needs no backtracking beyond the
one-or-two-digit choice of the leading clock, which is decided by the
character after the digits. -/

/-- `\d{1,2}:\d{2}` (greedy: two leading digits are preferred, and the
one-digit reading only applies when the second character is the colon). -/
def matchClock : List Char → Option (List Char)
  | c1 :: c2 :: c3 :: c4 :: c5 :: rest =>
      if c1.isDigit && c2.isDigit && c3 == ':' && c4.isDigit && c5.isDigit then some rest
      else if c1.isDigit && c2 == ':' && c3.isDigit && c4.isDigit then some (c5 :: rest)
      else none
  | [c1, c2, c3, c4] =>
      if c1.isDigit && c2 == ':' && c3.isDigit && c4.isDigit then some [] else none
  | _ => none

/-- `\s+`. -/
def matchWs1 (cs : List Char) : Option (List Char) :=
  if (cs.takeWhile Char.isWhitespace).isEmpty then none
  else some (cs.dropWhile Char.isWhitespace)

/-- A literal fragment of the pattern. -/
def matchLit (pat : List Char) (cs : List Char) : Option (List Char) :=
  if leadsWith pat cs then some (cs.drop pat.length) else none

/-- `(?:(\d+)\s+day(?:s)?,\s+)?` — group 1. -/
def optDay (cs : List Char) : Option Nat × List Char :=
  let attempt : Option (Nat × List Char) := do
    let ds := cs.takeWhile Char.isDigit
    if ds.isEmpty then none
    else do
      let r1 ← matchWs1 (cs.dropWhile Char.isDigit)
      let r2 ← matchLit "day".data r1
      let r3 := match r2 with
        | 's' :: t => t
        | _ => r2
      let r4 ← matchLit ",".data r3
      let r5 ← matchWs1 r4
      some (natOfDigits ds, r5)
  match attempt with
  | some (n, r) => (some n, r)
  | none => (none, cs)

/-- `(?:(\d+):(\d+))?` — groups 2 and 3. -/
def optHM (cs : List Char) : (Option Nat × Option Nat) × List Char :=
  let attempt : Option ((Nat × Nat) × List Char) := do
    let hs := cs.takeWhile Char.isDigit
    if hs.isEmpty then none
    else do
      let r1 ← matchLit ":".data (cs.dropWhile Char.isDigit)
      let ms := r1.takeWhile Char.isDigit
      if ms.isEmpty then none
      else some ((natOfDigits hs, natOfDigits ms), r1.dropWhile Char.isDigit)
  match attempt with
  | some (hm, r) => ((some hm.1, some hm.2), r)
  | none => ((none, none), cs)

/-- `(?:(\d+)\s+min(?:ute)?s?)?` — group 4. -/
def optMin (cs : List Char) : Option Nat :=
  let ds := cs.takeWhile Char.isDigit
  if ds.isEmpty then none
  else
    match matchWs1 (cs.dropWhile Char.isDigit) with
    | none => none
    | some r1 =>
        match matchLit "min".data r1 with
        | none => none
        | some _ => some (natOfDigits ds)

/-- The whole pattern evaluated at one start position; after the mandatory
clock/`up` part all groups are optional, so the attempt always yields the
four (possibly absent) capture groups. -/
def uptimeGroups (cs : List Char) : Option (Option Nat × Option Nat × Option Nat × Option Nat) := do
  let r1 ← matchClock cs
  let r2 ← matchWs1 r1
  let r3 ← matchLit "up".data r2
  let r4 ← matchWs1 r3
  let (g1, r5) := optDay r4
  let (g23, r6) := optHM r5
  let g4 := optMin r6
  some (g1, g23.1, g23.2, g4)

/-- `re.search`: leftmost start position at which the pattern matches. -/
def searchUptime : List Char → Option (Option Nat × Option Nat × Option Nat × Option Nat)
  | [] => uptimeGroups []
  | c :: t =>
      match uptimeGroups (c :: t) with
      | some g => some g
      | none => searchUptime t

/-- Lines 259-261: days/hours/minutes from the four capture groups,
absent optional groups defaulting to 0. -/
def uptime_parse (s : String) : Option (Nat × Nat × Nat) :=
  (searchUptime s.data).map (fun g =>
    (g.1.getD 0,
     g.2.1.getD 0,
     match g.2.2.1 with
     | some m => m
     | none => g.2.2.2.getD 0))

/-- `p` (lines 263-264): pluralization of one unit. -/
def p (val : Nat) (unit : String) : String :=
  toString val ++ " " ++ unit ++ (if val == 1 then "" else "s")

/-- The formatted return value of `uptime` (line 266). -/
def uptime_fmt (days hours minutes : Nat) : String :=
  p days "Day" ++ ", " ++ p hours "Hour" ++ ", " ++ p minutes "Minute"

/-- `uptime` (lines 248-268). -/
def uptime (env : Env) : Except String String :=
  match os_check env.system with
  | .error e => .error e
  | .ok os =>
      if os = "macOS" ∨ os = "Linux" then
        match uptime_parse env.uptimeOut with
        | none => .error "[!] Something went wrong, your uptime might be broken. Please make a Github Issue."
        | some dhm => .ok (uptime_fmt dhm.1 dhm.2.1 dhm.2.2)
      else .error unsupported_os_msg

/-- `disk_usage` (lines 271-279): the only probe with a non-raising
fallback, reached when `os_check` succeeds with a third value. -/
def disk_usage (env : Env) : Except String String :=
  match os_check env.system with
  | .error e => .error e
  | .ok os =>
      if os = "Linux" ∨ os = "macOS" then .ok (pyStrip env.dfOut)
      else .ok "N/A"

/-! ### Theme helpers and the color palette (lines 282-305) -/

/-- One `f"\033[{color}m█\033[0m"` block of `print_color_palette`. -/
def color_block (color : Nat) : String :=
  "\x1b[" ++ toString color ++ "m█\x1b[0m"

/-- `print_color_palette` (lines 282-293): two rows of eight
three-character color blocks. -/
def print_color_palette : List String :=
  (List.range 2).map (fun i =>
    String.join ((List.range 8).map (fun j =>
      let color := 30 + j + (if i = 1 then 60 else 0)
      color_block color ++ color_block color ++ color_block color)))

/-- `theme_bar` (lines 296-299). -/
def theme_bar (theme : Option String) : String :=
  "\x1b[" ++ code_str theme ++ "m▐\x1b[0m"

/-- `colored_symbol` (lines 302-305). -/
def colored_symbol (theme : Option String) (symbol : String) : String :=
  "\x1b[" ++ code_str theme ++ "m" ++ symbol ++ "\x1b[0m"

/-! ### `sysinfo` (lines 310-344).  The probes are run in the order their
rows are built; both presentation lists always hold 8 fact rows, one empty
row and the two palette rows. -/

/-- The `sys_info_default` list (lines 313-324); `bar = theme_bar()` of
line 311 is pure, so it is inlined into each row. -/
def sys_info_default_list (env : Env) (os pkgs : String) (shellv : Option String)
    (term mem disk up : String) : List String :=
  [(if os = "macOS" then colored_symbol env.themeArg ""
    else colored_symbol env.themeArg "")
     ++ "  " ++ theme_bar env.themeArg ++ "  " ++ env.platformTerse,
   colored_symbol env.themeArg "" ++ "  " ++ theme_bar env.themeArg ++ "  " ++ env.machine,
   colored_symbol env.themeArg "" ++ "  " ++ theme_bar env.themeArg ++ "  " ++ pkgs,
   colored_symbol env.themeArg "" ++ "  " ++ theme_bar env.themeArg ++ "  " ++ pyStr shellv,
   colored_symbol env.themeArg "" ++ "  " ++ theme_bar env.themeArg ++ "  " ++ term,
   colored_symbol env.themeArg "" ++ "  " ++ theme_bar env.themeArg ++ "  " ++ mem,
   colored_symbol env.themeArg "" ++ "  " ++ theme_bar env.themeArg ++ "  " ++ disk,
   colored_symbol env.themeArg "" ++ "  " ++ theme_bar env.themeArg ++ "  " ++ up,
   ""] ++ print_color_palette

/-- The `sys_info_no_nerd_font` list (lines 326-337). -/
def sys_info_no_nerd_font_list (env : Env) (pkgs : String) (shellv : Option String)
    (term mem disk up : String) : List String :=
  ["OS: " ++ env.platformTerse,
   "Arch: " ++ env.machine,
   "Packages: " ++ pkgs,
   "Shell: " ++ pyStr shellv,
   "Term: " ++ term,
   "Memory: " ++ mem,
   "Disk: " ++ disk,
   "Uptime: " ++ up,
   ""] ++ print_color_palette

def sysinfo (env : Env) : Except String (List String) :=
  match os_check env.system with
  | .error e => .error e
  | .ok os =>
  match package_count env with
  | .error e => .error e
  | .ok pkgs =>
  match shell_ver env with
  | .error e => .error e
  | .ok shellv =>
  match find_term env with
  | .error e => .error e
  | .ok term =>
  match memory_current env with
  | .error e => .error e
  | .ok mem =>
  match disk_usage env with
  | .error e => .error e
  | .ok disk =>
  match uptime env with
  | .error e => .error e
  | .ok up =>
    .ok (if env.sysInfoArg = some "sys_info_default" then
           sys_info_default_list env os pkgs shellv term mem disk up
         else if env.sysInfoArg = some "sys_info_no_nerd_font" then
           sys_info_no_nerd_font_list env pkgs shellv term mem disk up
         else sys_info_default_list env os pkgs shellv term mem disk up)

/-! ### The renderer (`main`, lines 349-362) -/

/-- One composed output line of the loop body (lines 358-361): colored art
line, right padding up to the column width, then the info string. -/
def render_row (code : String) (width : Nat) (line stat : String) : String :=
  "\x1b[" ++ code ++ "m" ++ line ++ "\x1b[0m"
    ++ String.mk (List.replicate (width - line.length) ' ') ++ stat

/-- The `for i, stat in enumerate(sysinfo())` loop: one row per info line,
with `art_lines[i] if i < len(art_lines) else ""` as the left column. -/
def render_loop (code : String) (width : Nat) (art_lines : List String) :
    List String → Nat → List String
  | [], _ => []
  | stat :: rest, i =>
      render_row code width (art_lines.getD i "") stat :: render_loop code width art_lines rest (i + 1)

/-- `main` (lines 349-362): the pair of (lines printed, uncaught
exception).  A detection failure aborts before anything is printed; the
Windows warning is printed first when detection yields Windows. -/
def main_run (env : Env) : List String × Option String :=
  match os_check env.system with
  | .error e => ([], some e)
  | .ok os =>
      let warn := if os = "Windows" then ["[!] Oops! qfetch doesn\x27t support Windows yet."] else []
      match ascii_art env with
      | none => (warn, some "AttributeError: NoneType object has no attribute splitlines")
      | some fa =>
          let art_lines := pySplitlines fa
          match compute_width art_lines with
          | none => (warn, some "IndexError: list index out of range")
          | some width =>
              match sysinfo env with
              | .error e => (warn, some e)
              | .ok info => (warn ++ render_loop (code_str env.themeArg) width art_lines info 0, none)

/-- The art names accepted by the argument parser (`choices=` of `--art`,
lines 38-45); `none` is an omitted flag. -/
def Env.validArt (env : Env) : Prop :=
  env.artArg ∈ ([none, some "Playboy-Bunny", some "Tux", some "Phoenix",
                 some "Robot", some "Cat", some "Random-Art"] : List (Option String))

/-! ### Concrete environments used to instantiate the theorems -/

/-- A plain Linux host with a zsh shell on which every probe succeeds. -/
def env0 : Env where
  system := "Linux"
  release := "6.1.0-generic"
  platformTerse := "Linux-6.1.0-x86_64"
  machine := "x86_64"
  artArg := none
  sysInfoArg := none
  themeArg := none
  randIndex := 0
  brewCount := 0
  dpkgOut := "1234\n"
  shellEnv := "/usr/bin/zsh\n"
  zshVerOut := "zsh 5.9 (x86_64)\n"
  bashVerOut := ""
  termEnv := "xterm-256color\n"
  memsizeOut := ""
  pagesizeOut := ""
  vmStatOut := ""
  memFreeOut := "3000MiB / 16000MiB"
  uptimeOut := "10:15 up 2 days, 3:45\n"
  dfOut := "20G / 100G"

/-- The same host reporting an OS outside the detectable set. -/
def env_plan9 : Env := { env0 with system := "Plan9" }

/-- The same host reporting Windows. -/
def env_windows : Env := { env0 with system := "Windows" }

/-- The same host with a fish shell (neither zsh nor bash). -/
def env_fish : Env := { env0 with shellEnv := "/usr/bin/fish\n" }

/-- The same host with the Random-Art flag chosen. -/
def env_rand : Env := { env0 with artArg := some "Random-Art" }

/-! ### Helper lemmas -/

theorem rand_art_mem (r : Fin 5) : rand_art r ∈ art := by
  rcases r with ⟨v, hv⟩
  interval_cases v <;> simp [rand_art, art]

theorem render_loop_length (code : String) (w : Nat) (a : List String) :
    ∀ (info : List String) (i : Nat), (render_loop code w a info i).length = info.length := by
  intro info
  induction info with
  | nil => intro i; simp [render_loop]
  | cons s rest ih => intro i; simp [render_loop, ih (i + 1)]

theorem render_loop_get? (code : String) (w : Nat) (a : List String) :
    ∀ (info : List String) (j i : Nat),
      (render_loop code w a info j)[i]?
        = (info[i]?).map (fun stat => render_row code w (a.getD (j + i) "") stat) := by
  intro info
  induction info with
  | nil => intro j i; simp [render_loop]
  | cons s rest ih =>
      intro j i
      cases i with
      | zero => simp [render_loop]
      | succ k =>
          have harith : j + 1 + k = j + (k + 1) := by omega
          simp only [render_loop, List.getElem?_cons_succ, ih (j + 1) k, harith]

theorem getD_of_length_le (l : List String) :
    ∀ (i : Nat), l.length ≤ i → l.getD i "" = "" := by
  induction l with
  | nil => intro i _; cases i <;> rfl
  | cons x xs ih =>
      intro i hi
      cases i with
      | zero => simp at hi
      | succ k => simpa [List.getD] using ih k (by simpa using hi)

/-! ### Claims -/

/-- **C3.** The uptime parser yields days=2, hours=3, minutes=45 on
`"10:15 up 2 days, 3:45"` and days=0, hours=0, minutes=5 on
`"10:15 up 5 mins"` (unmatched optional groups defaulting to 0), and the
`uptime` probe formats these as `"2 Days, 3 Hours, 45 Minutes"` and
`"0 Days, 0 Hours, 5 Minutes"`. -/
theorem c3_uptime_examples :
    uptime_parse "10:15 up 2 days, 3:45" = some (2, 3, 45) ∧
    uptime_fmt 2 3 45 = "2 Days, 3 Hours, 45 Minutes" ∧
    uptime { env0 with uptimeOut := "10:15 up 2 days, 3:45" }
      = .ok "2 Days, 3 Hours, 45 Minutes" ∧
    uptime_parse "10:15 up 5 mins" = some (0, 0, 5) ∧
    uptime_fmt 0 0 5 = "0 Days, 0 Hours, 5 Minutes" ∧
    uptime { env0 with uptimeOut := "10:15 up 5 mins" }
      = .ok "0 Days, 0 Hours, 5 Minutes" := by
  refine ⟨by decide, by decide, by rfl, by decide, by decide, by rfl⟩

/-- **C4.** Pluralization: `p n unit` is `"<n> <unit>"` exactly when
`n = 1` and `"<n> <unit>s"` otherwise (including 0); the three quoted
instances hold; and the uptime formatter applies `p` to each of days,
hours and minutes. -/
theorem c4_pluralization :
    (∀ (n : Nat) (u : String),
        p n u = if n = 1 then toString n ++ " " ++ u else toString n ++ " " ++ u ++ "s") ∧
    p 1 "Day" = "1 Day" ∧ p 0 "Day" = "0 Days" ∧ p 5 "Minute" = "5 Minutes" ∧
    ∀ (d h m : Nat),
      uptime_fmt d h m = p d "Day" ++ ", " ++ p h "Hour" ++ ", " ++ p m "Minute" := by
  refine ⟨?_, by decide, by decide, by decide, fun d h m => rfl⟩
  intro n u
  by_cases h : n = 1
  · simp [p, h, String.append_empty]
  · simp [p, h]

/-- **C9.** Theme resolution: the seven accepted names map to
{default→95, red→91, green→92, yellow→93, blue→94, magenta→95, cyan→96},
an unset theme resolves like `"default"`, and `"magenta"` and
`"default"` resolve to the identical code 95. -/
theorem c9_theme_mapping :
    theme_color_code (some "default") = some "95" ∧
    theme_color_code (some "red") = some "91" ∧
    theme_color_code (some "green") = some "92" ∧
    theme_color_code (some "yellow") = some "93" ∧
    theme_color_code (some "blue") = some "94" ∧
    theme_color_code (some "magenta") = some "95" ∧
    theme_color_code (some "cyan") = some "96" ∧
    theme_color_code none = theme_color_code (some "default") ∧
    theme_color_code (some "magenta") = theme_color_code (some "default") ∧
    theme_color_code (some "magenta") = some "95" := by
  decide

/-- **C2.** For every catalog art block the computed column width is at
least 15, and it is exactly the maximum line length plus the 3-column
gutter whenever that maximum exceeds 15. -/
theorem c2_compute_width (a : String) (ha : a ∈ art) :
    ∃ L, longest_line (pySplitlines a) = some L ∧
      compute_width (pySplitlines a) = some (max (L + 3) 15) ∧
      15 ≤ max (L + 3) 15 ∧
      (15 < L → max (L + 3) 15 = L + 3) := by
  simp only [art, List.mem_cons, List.not_mem_nil, or_false] at ha
  rcases ha with rfl | rfl | rfl | rfl | rfl
  · exact ⟨13, by decide, by decide, by decide, by decide⟩
  · exact ⟨13, by decide, by decide, by decide, by decide⟩
  · exact ⟨19, by decide, by decide, by decide, by decide⟩
  · exact ⟨21, by decide, by decide, by decide, by decide⟩
  · exact ⟨26, by decide, by decide, by decide, by decide⟩

theorem c2_compute_width_witness :
    art2 ∈ art ∧
    ∃ L, longest_line (pySplitlines art2) = some L ∧
      compute_width (pySplitlines art2) = some (max (L + 3) 15) ∧
      15 ≤ max (L + 3) 15 ∧
      (15 < L → max (L + 3) 15 = L + 3) :=
  ⟨by simp [art], c2_compute_width art2 (by simp [art])⟩

/-- **C5.** With `--art Random-Art`, every query of `ascii_art` within a
run returns the art block drawn once at process start (`rand_art` of the
run's fixed random index), and that block is one of the five catalog
variants. -/
theorem c5_random_art_stable (env : Env) (h : env.artArg = some "Random-Art") :
    ascii_art env = some (rand_art env.randIndex) ∧ rand_art env.randIndex ∈ art := by
  constructor
  · unfold ascii_art
    rw [h]
    rfl
  · exact rand_art_mem env.randIndex

theorem c5_random_art_stable_witness :
    ascii_art env_rand = some (rand_art env_rand.randIndex) ∧
    rand_art env_rand.randIndex ∈ art :=
  c5_random_art_stable env_rand rfl

/-- **C6.** A `platform.system()` outside {Darwin, Windows, Linux} (e.g.
"Plan9") makes detection fail with the unsupported-platform error and the
run prints nothing at all, while "Windows" is accepted and returned by
detection. -/
theorem c6_unsupported_os (s : String) (env : Env)
    (h1 : s ≠ "Darwin") (h2 : s ≠ "Windows") (h3 : s ≠ "Linux") (hs : env.system = s) :
    os_check s = .error unsupported_detect_msg ∧
    main_run env = ([], some unsupported_detect_msg) ∧
    os_check "Windows" = .ok "Windows" := by
  have hos : os_check s = .error unsupported_detect_msg := by
    unfold os_check
    rw [if_neg h1, if_neg h2, if_neg h3]
  refine ⟨hos, ?_, rfl⟩
  unfold main_run
  rw [hs, hos]

theorem c6_unsupported_os_witness :
    os_check "Plan9" = .error unsupported_detect_msg ∧
    main_run env_plan9 = ([], some unsupported_detect_msg) ∧
    os_check "Windows" = .ok "Windows" :=
  c6_unsupported_os "Plan9" env_plan9 (by decide) (by decide) (by decide) rfl

/-- **C7 counterexample.** On a host whose `platform.system()` is outside
the detectable set (here "Plan9"), `disk_usage` does *not* return "N/A":
the `os_check()` call inside it raises, so the probe fails exactly like
every other probe. -/
theorem c7_counterexample :
    disk_usage env_plan9 = .error unsupported_detect_msg ∧
    disk_usage env_plan9 ≠ .ok "N/A" := by
  have h : disk_usage env_plan9 = .error unsupported_detect_msg := rfl
  exact ⟨h, fun hc => by rw [h] at hc; exact Except.noConfusion hc⟩

/-- **C7 (amended).** Whenever OS detection *succeeds* with a value
outside {macOS, Linux} — which the detector only does for Windows —
`disk_usage` returns the sentinel "N/A" instead of raising. -/
theorem c7_disk_usage_na (env : Env) (os : String) (h : os_check env.system = .ok os)
    (h1 : os ≠ "macOS") (h2 : os ≠ "Linux") :
    disk_usage env = .ok "N/A" := by
  simp only [disk_usage, h]
  rw [if_neg (fun hc => hc.elim h2 h1)]

theorem c7_disk_usage_na_witness : disk_usage env_windows = .ok "N/A" :=
  c7_disk_usage_na env_windows "Windows" rfl (by decide) (by decide)

/-- **C8 counterexample.** On Linux with `$SHELL = /usr/bin/fish` (neither
zsh nor bash), `shell_ver` does not raise: it falls off the `if` chain and
returns Python `None` (`Except.ok none`), never an error. -/
theorem c8_counterexample :
    shell_ver env_fish = .ok none ∧ ∀ msg, shell_ver env_fish ≠ .error msg := by
  have h : shell_ver env_fish = .ok none := rfl
  exact ⟨h, fun msg hc => by rw [h] at hc; exact Except.noConfusion hc⟩

/-- **C8 (amended).** On a supported OS, when the reported shell contains
neither "zsh" nor "bash", the shell-version probe returns no version value
at all — Python's implicit `None`, which the info row then renders as the
string "None" — rather than raising an error. -/
theorem c8_shell_fallthrough (env : Env) (os : String) (h : os_check env.system = .ok os)
    (hsup : os = "macOS" ∨ os = "Linux")
    (hz : containsSubstr (pyStrip env.shellEnv) "zsh" = false)
    (hb : containsSubstr (pyStrip env.shellEnv) "bash" = false) :
    shell_ver env = .ok none := by
  simp only [shell_ver, h]
  rw [if_pos hsup]
  simp [hz, hb]

theorem c8_shell_fallthrough_witness : shell_ver env_fish = .ok none :=
  c8_shell_fallthrough env_fish "Linux" rfl (Or.inr rfl) (by decide) (by decide)

/-! ### Machinery shared by C1 and C10 -/

/-- The width/gutter bound, checked per catalog block. -/
theorem gutter_of_art (fa : String) (ha : fa ∈ art) :
    ∃ w, compute_width (pySplitlines fa) = some w ∧
      ∀ line ∈ pySplitlines fa, line.length + 3 ≤ w := by
  simp only [art, List.mem_cons, List.not_mem_nil, or_false] at ha
  rcases ha with rfl | rfl | rfl | rfl | rfl
  · exact ⟨16, by decide, by decide⟩
  · exact ⟨16, by decide, by decide⟩
  · exact ⟨22, by decide, by decide⟩
  · exact ⟨24, by decide, by decide⟩
  · exact ⟨29, by decide, by decide⟩

/-- Under a valid `--art` flag, the selected art is one of the five
catalog blocks. -/
theorem ascii_art_mem (env : Env) (hv : env.validArt) :
    ∃ fa, ascii_art env = some fa ∧ fa ∈ art := by
  simp only [Env.validArt, List.mem_cons, List.not_mem_nil, or_false] at hv
  rcases hv with h | h | h | h | h | h | h
  · exact ⟨art2, by unfold ascii_art; rw [h]; try rfl, by simp [art]⟩
  · exact ⟨art0, by unfold ascii_art; rw [h]; try rfl, by simp [art]⟩
  · exact ⟨art1, by unfold ascii_art; rw [h]; try rfl, by simp [art]⟩
  · exact ⟨art2, by unfold ascii_art; rw [h]; try rfl, by simp [art]⟩
  · exact ⟨art3, by unfold ascii_art; rw [h]; try rfl, by simp [art]⟩
  · exact ⟨art4, by unfold ascii_art; rw [h]; try rfl, by simp [art]⟩
  · exact ⟨rand_art env.randIndex, by unfold ascii_art; rw [h]; try rfl, rand_art_mem env.randIndex⟩

/-- **C10.** For every valid art selection (the Random-Art draw included)
the computed column width exceeds each art line's length by at least 3,
so the padding is never negative and every art line is followed by a
gutter of at least 3 spaces. -/
theorem c10_gutter (env : Env) (hv : env.validArt) :
    ∃ fa w, ascii_art env = some fa ∧ compute_width (pySplitlines fa) = some w ∧
      ∀ line ∈ pySplitlines fa, line.length + 3 ≤ w := by
  obtain ⟨fa, hfa, hmem⟩ := ascii_art_mem env hv
  obtain ⟨w, hw, hall⟩ := gutter_of_art fa hmem
  exact ⟨fa, w, hfa, hw, hall⟩

theorem c10_gutter_witness :
    ∃ fa w, ascii_art env_rand = some fa ∧ compute_width (pySplitlines fa) = some w ∧
      ∀ line ∈ pySplitlines fa, line.length + 3 ≤ w :=
  c10_gutter env_rand (by unfold Env.validArt; decide)

/-! ### Machinery for C1 -/

/-- `package_count` only succeeds when detection yielded macOS or Linux. -/
theorem package_count_os {env : Env} {pkgs : String} (h : package_count env = .ok pkgs) :
    os_check env.system = .ok "macOS" ∨ os_check env.system = .ok "Linux" := by
  unfold package_count at h
  split at h
  · exact Except.noConfusion h
  · rename_i os heq
    by_cases h1 : os = "macOS"
    · exact Or.inl (h1 ▸ heq)
    · by_cases h2 : os = "Linux"
      · exact Or.inr (h2 ▸ heq)
      · rw [if_neg h1, if_neg h2] at h
        exact Except.noConfusion h

/-- When `sysinfo` succeeds, the info list has exactly 11 rows (8 facts,
the empty row, and the two palette rows) and the detected OS was macOS or
Linux. -/
theorem sysinfo_ok_parts {env : Env} {info : List String} (h : sysinfo env = .ok info) :
    info.length = 11 ∧ (os_check env.system = .ok "macOS" ∨ os_check env.system = .ok "Linux") := by
  unfold sysinfo at h
  split at h
  · exact Except.noConfusion h
  split at h
  · exact Except.noConfusion h
  rename_i pkgs heq2
  split at h
  · exact Except.noConfusion h
  split at h
  · exact Except.noConfusion h
  split at h
  · exact Except.noConfusion h
  split at h
  · exact Except.noConfusion h
  split at h
  · exact Except.noConfusion h
  injection h with h
  subst h
  refine ⟨?_, package_count_os heq2⟩
  split
  · rfl
  split
  · rfl
  · rfl

/-- Every catalog art block splits into at most 10 lines. -/
theorem art_lines_le (fa : String) (ha : fa ∈ art) : (pySplitlines fa).length ≤ 10 := by
  simp only [art, List.mem_cons, List.not_mem_nil, or_false] at ha
  rcases ha with rfl | rfl | rfl | rfl | rfl <;> decide

/-- **C1.** On every successful run (any valid art selection, theme and
info style), the rendered output has exactly
`max(len(art_lines), len(info_lines))` rows — the info list always has 11
lines and every art block at most 10, so the maximum is the info count —
the rows beyond the art block render an empty string as their left
column, and the info list is never shorter than the number of rows
printed. -/
theorem c1_row_count (env : Env) (info : List String)
    (hv : env.validArt) (h : sysinfo env = .ok info) :
    ∃ fa width rows,
      ascii_art env = some fa ∧
      compute_width (pySplitlines fa) = some width ∧
      main_run env = (rows, none) ∧
      rows.length = max (pySplitlines fa).length info.length ∧
      rows.length ≤ info.length ∧
      ∀ i, (pySplitlines fa).length ≤ i → i < rows.length →
        rows[i]? = some (render_row (code_str env.themeArg) width "" (info.getD i "")) := by
  obtain ⟨fa, hfa, hmem⟩ := ascii_art_mem env hv
  obtain ⟨w, hw, _⟩ := gutter_of_art fa hmem
  obtain ⟨hlen, hos⟩ := sysinfo_ok_parts h
  have hart : (pySplitlines fa).length ≤ 10 := art_lines_le fa hmem
  have hwindows : ∀ os, os_check env.system = .ok os → os ≠ "Windows" →
      main_run env = (render_loop (code_str env.themeArg) w (pySplitlines fa) info 0, none) := by
    intro os hosd hne
    unfold main_run
    rw [hosd]
    simp only [hfa, hw, h, if_neg hne]
    rfl
  have hmain : main_run env = (render_loop (code_str env.themeArg) w (pySplitlines fa) info 0, none) := by
    rcases hos with hos | hos
    · exact hwindows "macOS" hos (by decide)
    · exact hwindows "Linux" hos (by decide)
  refine ⟨fa, w, render_loop (code_str env.themeArg) w (pySplitlines fa) info 0,
    hfa, hw, hmain, ?_, ?_, ?_⟩
  · rw [render_loop_length, hlen]
    omega
  · rw [render_loop_length]
  · intro i hi hilt
    rw [render_loop_length] at hilt
    rw [render_loop_get? (code_str env.themeArg) w (pySplitlines fa) info 0 i]
    have hz : (0 : Nat) + i = i := Nat.zero_add i
    rw [hz, getD_of_length_le _ _ hi]
    have hget : info[i]? = some (info.getD i "") := by
      rw [List.getD_eq_getElem?_getD, List.getElem?_eq_getElem hilt]
      rfl
    rw [hget]
    rfl

theorem c1_row_count_witness :
    env0.validArt ∧
    ∃ info, sysinfo env0 = .ok info ∧
      ∃ fa width rows,
        ascii_art env0 = some fa ∧
        compute_width (pySplitlines fa) = some width ∧
        main_run env0 = (rows, none) ∧
        rows.length = max (pySplitlines fa).length info.length ∧
        rows.length ≤ info.length ∧
        ∀ i, (pySplitlines fa).length ≤ i → i < rows.length →
          rows[i]? = some (render_row (code_str env0.themeArg) width "" (info.getD i "")) := by
  have hh : sysinfo env0 = Except.ok ((sysinfo env0).toOption.getD []) := by rfl
  exact ⟨by unfold Env.validArt; decide, _, hh,
    c1_row_count env0 _ (by unfold Env.validArt; decide) hh⟩

end Qfetch
